import Mathlib

/-
Verification development for the TurboSolid resource layer
(src/src/resource.ts, `createTurboResource`).

The embedding models the pure decision logic of the source:
key memoization and falsiness checks, transition-option resolution,
the guarded cache actions, the loader's promise/fetch dispatch with
option spreading, the focus throttle handler, the staleness polling
tick, and the key-change subscription state machine driven by the
host runtime's effect-with-cleanup semantics.

Times are modelled as integers (milliseconds, matching JS
`Date.getTime()`); promises are modelled by identifiers; fallible
fetches are modelled by `Except`.
-/

namespace TurboSolid

/-- TurboSolidKeyType from resource.ts: `string | false | null | undefined`. -/
inductive KeyType where
  | str (s : String)
  | fls
  | null
  | undef
deriving DecidableEq, Repr

/-- keyMemo (resource.ts lines 186-192): evaluates the key accessor inside
try/catch, returning `null` when the accessor throws and the returned value
unchanged otherwise.  The accessor outcome is modelled as `Except Unit KeyType`:
`.error ()` is a throw, `.ok v` a normal return. -/
def keyMemo (accessor : Except Unit KeyType) : KeyType :=
  match accessor with
  | .ok v => v
  | .error _ => .null

/-- JS truthiness of a key, as used by the `if (!key) return` guards:
only a non-empty string is truthy.  Returns the active key string when
the key is truthy, `none` otherwise. -/
def activeKey : KeyType → Option String
  | .str s => if s = "" then none else some s
  | _ => none

/-- KeyType.isString records whether a key value is a string at all
(the claim wording "the resolved key is not a string"). -/
def KeyType.isString : KeyType → Bool
  | .str _ => true
  | _ => false

/-- Transition functions: the host default `startTransition` or a
caller-supplied function, identified by a tag. -/
inductive TransitionFn where
  | startTransition
  | custom (id : Nat)
deriving DecidableEq, Repr

/-- The `transition` option value: absent/undefined, a boolean, or a
caller-supplied function (TurboSolidResourceOptions.transition). -/
inductive TransitionOption where
  | undef
  | bool (b : Bool)
  | fn (f : TransitionFn)
deriving DecidableEq, Repr

/-- getTransition (resource.ts lines 171-181): `undefined` resolves to
`startTransition`; a boolean resolves to `startTransition` when `true` and
to no transition when `false`; a function is used as-is. -/
def getTransition : TransitionOption → Option TransitionFn
  | .undef => some .startTransition
  | .bool b => if b then some .startTransition else none
  | .fn f => some f

/-- Resolution at the call site (resource.ts line 201):
`getTransition(options?.transition ?? contextOptions?.transition)`,
where an absent per-call option falls back to the context option. -/
def resolvedTransition (opts ctx : TransitionOption) : Option TransitionFn :=
  getTransition (match opts with | .undef => ctx | o => o)

/-- localMutate (resource.ts lines 221-225): no-op unless the memoized key
is truthy, otherwise forwards `(key, value)` to the cache mutate operation.
The result records the cache call made, `none` meaning no cache operation. -/
def localMutate (k : KeyType) (value : Nat) : Option (String × Nat) :=
  (activeKey k).map (fun s => (s, value))

/-- localForget (resource.ts lines 448-452): no-op unless the key is truthy,
otherwise forwards the key to the cache forget operation. -/
def localForget (k : KeyType) : Option String :=
  activeKey k

/-- localAbort (resource.ts lines 457-461): no-op unless the key is truthy,
otherwise forwards `(key, reason)` to the cache abort operation. -/
def localAbort (k : KeyType) (reason : Option Nat) : Option (String × Option Nat) :=
  (activeKey k).map (fun s => (s, reason))

/-- localRefetch (resource.ts lines 232-239): returns (a promise of)
`undefined` when the key is not truthy; otherwise issues a non-stale cache
query and returns `await promise` of that exact query, so a rejection of the
query rejects the returned promise with the same error.  The query outcome is
the `q` argument; the function body neither catches nor rewraps it. -/
def localRefetch (k : KeyType) (q : Except String Nat) : Except String (Option Nat) :=
  match activeKey k with
  | none => .ok none
  | some _ => q.map some

/-- RefetchArg models the `refetching` info passed by the host resource
primitive to the loader: an externally supplied promise (identified by a tag),
a boolean, or undefined. -/
inductive RefetchArg where
  | promise (id : Nat)
  | bool (b : Bool)
  | undef
deriving DecidableEq, Repr

/-- RefetchArg.isPromise mirrors the loader's `refetching instanceof Promise`
test. -/
def RefetchArg.isPromise : RefetchArg → Bool
  | .promise _ => true
  | _ => false

/-- LoaderResult: what the loader returns — the externally supplied promise
itself, or a cache query for the key with a resolved `stale` option. -/
inductive LoaderResult where
  | fromPromise (id : Nat)
  | queryFetch (k : String) (stale : Bool)
deriving DecidableEq, Repr

/-- resolveStale models the object spread
`{ stale: true, ...contextOptions, ...options }` restricted to the `stale`
property: a per-call option wins, else the context option, else the
default `true`. -/
def resolveStale (ctx opts : Option Bool) : Bool :=
  match opts with
  | some b => b
  | none =>
    match ctx with
    | some b => b
    | none => true

/-- loader (resource.ts lines 211-215): if the refetching argument is a
Promise, return it directly; otherwise issue
`query(k, { stale: true, ...contextOptions, ...options })`. -/
def loader (ctx opts : Option Bool) (k : String) (r : RefetchArg) : LoaderResult :=
  match r with
  | .promise id => .fromPromise id
  | _ => .queryFetch k (resolveStale ctx opts)

/-- focusHandler (resource.ts lines 269-277): the raw window-focus handler.
Given the throttle interval, the stored last-focus time and the current time,
it accepts the event (updating the timestamp and invoking the refetch
listener) exactly when `now - last > focusInterval`; otherwise it drops the
event, leaving the timestamp unchanged.  Returns the new timestamp and
whether a refetch was invoked. -/
def focusHandler (focusInterval last now : Nat) : Nat × Bool :=
  if now - last > focusInterval then (now, true) else (last, false)

/-- focusRun folds focusHandler over a sequence of raw focus-event times,
starting from a stored last-focus timestamp, returning the final timestamp
and the number of accepted events (refetch invocations). -/
def focusRun (focusInterval : Nat) (last : Nat) : List Nat → Nat × Nat
  | [] => (last, 0)
  | t :: ts =>
    let h := focusHandler focusInterval last t
    let rest := focusRun focusInterval h.1 ts
    (rest.1, (if h.2 then 1 else 0) + rest.2)

/-- staleTick (resource.ts lines 364-371): one polling tick of createStale,
given a defined expiration time `E` and the current time `now`, updating the
state `(isStale, staleIn)`.  `staleIn` is set to `E - now` when that is
non-negative, clamped to `0` when negative and the previous value was
positive, and left unchanged otherwise; `isStale` is set to `E < now`. -/
def staleTick (E now : Int) (s : Bool × Int) : Bool × Int :=
  let expirationIn := E - now
  let staleIn :=
    if expirationIn ≥ 0 then expirationIn
    else if s.2 > 0 then 0 else s.2
  (decide (E < now), staleIn)

/-- stalePoll (resource.ts lines 362-372): the full interval callback of
createStale.  `key` is the key captured when the polling effect (re)ran,
`exp` the cache's current expiration for it (`none` when not cached).
When the key is not truthy, or the expiration is undefined, the signals are
left unchanged; otherwise one staleTick is applied. -/
def stalePoll (key : KeyType) (exp : Option Int) (now : Int) (s : Bool × Int) :
    Bool × Int :=
  match activeKey key with
  | none => s
  | some _ =>
    match exp with
    | none => s
    | some E => staleTick E now s

/-- staleInit (resource.ts lines 341-354): the synchronous initial snapshot
of createStale — stale-by-default with zero countdown, refined from the
current expiration when the key is truthy and an expiration is recorded. -/
def staleInit (key : KeyType) (exp : Option Int) (now : Int) : Bool × Int :=
  match activeKey key with
  | none => (true, 0)
  | some _ =>
    match exp with
    | none => (true, 0)
    | some E =>
      (decide (E < now), if E - now ≥ 0 then E - now else 0)

/-- ListenerKind: the six listener classes of a Subscription Set — the four
cache event classes plus the focus and connect environment listeners. -/
inductive ListenerKind where
  | mutated
  | refetching
  | resolved
  | error
  | focus
  | connect
deriving DecidableEq, Repr

/-- Sub: one live subscription handle, recording the key it was created for
and its listener class. -/
structure Sub where
  key : String
  kind : ListenerKind
deriving DecidableEq, Repr

/-- Config: the resolved refetchOnFocus / refetchOnConnect flags
(resource.ts lines 202-203; both default true). -/
structure Config where
  refetchOnFocus : Bool
  refetchOnConnect : Bool
deriving DecidableEq, Repr

/-- setupSubs (resource.ts lines 392-434): the Subscription Set created by
one run of the key-change effect for a truthy key: the four cache event
subscriptions always, the focus listener when refetchOnFocus is set, and the
connect listener when refetchOnConnect is set. -/
def setupSubs (cfg : Config) (k : String) : List Sub :=
  [⟨k, .mutated⟩, ⟨k, .refetching⟩, ⟨k, .resolved⟩, ⟨k, .error⟩]
    ++ (if cfg.refetchOnFocus then [⟨k, .focus⟩] else [])
    ++ (if cfg.refetchOnConnect then [⟨k, .connect⟩] else [])

/-- MachineState: the per-instance state driven by the key-change effect:
the current memoized key, the isRefetching signal and the live
Subscription Set. -/
structure MachineState where
  key : KeyType
  isRefetching : Bool
  subs : List Sub
deriving DecidableEq, Repr

/-- MachineState.init: before the effect has ever run — no key bound, flag
false, no subscriptions. -/
def MachineState.init : MachineState :=
  ⟨.null, false, []⟩

/-- Action: the externally visible subscription operations a step performs,
in order: invoking an unsubscribe handle, or creating a subscription. -/
inductive Action where
  | unsub (s : Sub)
  | sub (s : Sub)
deriving DecidableEq, Repr

/-- Input: one stimulus to the resource instance — a reactive key change,
a cache event delivered for a key, or a call to the public unsubscribe. -/
inductive Input where
  | keyChange (k : KeyType)
  | cacheEvent (k : String) (ev : ListenerKind)
  | unsubscribeAll
deriving DecidableEq, Repr

/-- keyChangeStep (resource.ts lines 383-443): the host runtime first runs
the cleanup registered by the previous effect run (localUnsubscribe, tearing
down every live handle), then the effect body: set isRefetching false, and
if the new key is truthy create the new Subscription Set.  The returned
trace lists the operations in execution order. -/
def keyChangeStep (cfg : Config) (st : MachineState) (k : KeyType) :
    MachineState × List Action :=
  let teardown := st.subs.map Action.unsub
  match activeKey k with
  | some s =>
    let ns := setupSubs cfg s
    (⟨k, false, ns⟩, teardown ++ ns.map Action.sub)
  | none => (⟨k, false, []⟩, teardown)

/-- eventStep (resource.ts lines 392-420): delivery of a cache event.  An
event reaches a handler only if a live subscription for that key and class
exists.  The refetching handler sets isRefetching true; the resolved and
error handlers set it false; the mutated handler commits the value without
touching the flag. -/
def eventStep (st : MachineState) (k : String) (ev : ListenerKind) :
    MachineState :=
  if Sub.mk k ev ∈ st.subs then
    match ev with
    | .refetching => { st with isRefetching := true }
    | .resolved => { st with isRefetching := false }
    | .error => { st with isRefetching := false }
    | _ => st
  else st

/-- step: one transition of the resource instance, returning the new state
and the trace of subscription operations it performed.
unsubscribeAll (resource.ts lines 253-260) invokes every live handle and is
modelled as emptying the live set. -/
def step (cfg : Config) (st : MachineState) : Input → MachineState × List Action
  | .keyChange k => keyChangeStep cfg st k
  | .cacheEvent k ev => (eventStep st k ev, [])
  | .unsubscribeAll => ({ st with subs := [] }, st.subs.map Action.unsub)

/-- run: fold of step over an input sequence, keeping only the state. -/
def run (cfg : Config) (st : MachineState) : List Input → MachineState
  | [] => st
  | i :: is => run cfg (step cfg st i).1 is

/-- SubInv: the Subscription Set is empty or is exactly the set created for
the currently bound truthy key. -/
def SubInv (cfg : Config) (st : MachineState) : Prop :=
  st.subs = [] ∨ ∃ s, activeKey st.key = some s ∧ st.subs = setupSubs cfg s

theorem subInv_step (cfg : Config) (st : MachineState) (i : Input)
    (h : SubInv cfg st) : SubInv cfg (step cfg st i).1 := by
  cases i with
  | keyChange k =>
    simp only [step, keyChangeStep]
    cases hk : activeKey k with
    | none => exact Or.inl rfl
    | some s => exact Or.inr ⟨s, hk, rfl⟩
  | cacheEvent k ev =>
    simp only [step, eventStep]
    split
    · cases ev <;> exact h
    · exact h
  | unsubscribeAll => exact Or.inl rfl

theorem subInv_run (cfg : Config) (st : MachineState) (inputs : List Input)
    (h : SubInv cfg st) : SubInv cfg (run cfg st inputs) := by
  induction inputs generalizing st with
  | nil => exact h
  | cons i is ih => exact ih _ (subInv_step cfg st i h)

/-- C1: the claim asserts that an absent transition option resolves to no
transition.  The code (resource.ts line 174) maps `undefined` to the default
`startTransition`: an absent option enables the default transition. -/
theorem getTransition_absent_default :
    getTransition TransitionOption.undef ≠ none := by
  simp [getTransition]

/-- C1 (amended): a caller-supplied function is used as-is; `true` and an
absent option both resolve to the default host transition function
`startTransition`; only `false` resolves to no transition (direct
synchronous commit).  An absent per-call option falls back to the context
option (resource.ts line 201). -/
theorem transition_resolution (f : TransitionFn) (ctx : TransitionOption) :
    getTransition (.fn f) = some f
    ∧ getTransition (.bool true) = some .startTransition
    ∧ getTransition (.bool false) = none
    ∧ getTransition .undef = some .startTransition
    ∧ resolvedTransition .undef ctx = getTransition ctx
    ∧ resolvedTransition (.fn f) ctx = some f := by
  refine ⟨rfl, rfl, rfl, rfl, rfl, rfl⟩

/-- C2: the claim asserts that an accessor returning the non-string falsy
value `false` yields a memoized key equal to `null`.  The code stores the
returned value unchanged: `keyMemo` yields `false` itself. -/
theorem keyMemo_false_not_null :
    keyMemo (Except.ok KeyType.fls) ≠ KeyType.null := by
  decide

/-- C2 (amended): if the accessor throws, the memoized key is `null`; if it
returns normally, the memo retains the returned value unchanged — in
particular a non-string falsy value (`false` or `undefined`) is stored
as-is, not normalized to `null`.  In every such case the memoized key is
not an active string key, so no cache operation is invoked: mutate,
refetch, forget and abort all no-op, and the refetch resolves to
`undefined`. -/
theorem keyMemo_no_key (a : Except Unit KeyType) (v : Nat)
    (q : Except String Nat) (r : Option Nat) :
    (∀ e : Unit, a = .error e → keyMemo a = .null)
    ∧ (∀ k : KeyType, a = .ok k → keyMemo a = k)
    ∧ ((a = .ok .fls ∨ a = .ok .undef ∨ (∃ e, a = .error e)) →
        activeKey (keyMemo a) = none
        ∧ localMutate (keyMemo a) v = none
        ∧ localRefetch (keyMemo a) q = .ok none
        ∧ localForget (keyMemo a) = none
        ∧ localAbort (keyMemo a) r = none) := by
  refine ⟨?_, ?_, ?_⟩
  · intro e he
    subst he
    rfl
  · intro k hk
    subst hk
    rfl
  · intro h
    have hk : activeKey (keyMemo a) = none := by
      rcases h with h | h | ⟨e, h⟩ <;> subst h <;> rfl
    exact ⟨hk, by simp [localMutate, hk], by simp [localRefetch, hk],
      by simp [localForget, hk], by simp [localAbort, hk]⟩

theorem keyMemo_no_key_witness :
    keyMemo (Except.error ()) = KeyType.null
    ∧ keyMemo (Except.ok KeyType.fls) = KeyType.fls
    ∧ keyMemo (Except.ok KeyType.undef) = KeyType.undef
    ∧ localMutate (keyMemo (Except.error ())) 0 = none := by
  refine ⟨(keyMemo_no_key (Except.error ()) 0 (Except.ok 0) none).1 () rfl,
    (keyMemo_no_key (Except.ok KeyType.fls) 0 (Except.ok 0) none).2.1
      KeyType.fls rfl,
    (keyMemo_no_key (Except.ok KeyType.undef) 0 (Except.ok 0) none).2.1
      KeyType.undef rfl, ?_⟩
  exact (((keyMemo_no_key (Except.error ()) 0 (Except.ok 0) none).2.2
    (Or.inr (Or.inr ⟨(), rfl⟩))).2).1

/-- C3: the claim asserts that two focus events spaced more than the
throttle interval apart always produce two refetches.  With the timestamp
initialized to the creation time (resource.ts line 262), a first event
within the interval of creation is dropped without updating the timestamp,
so a later event more than the interval after creation produces the only
refetch: events at 1000 and 7000 with interval 5000 and creation at 0 are
spaced 6000 > 5000 apart yet yield one refetch, not two. -/
theorem focus_spacing_cex :
    7000 - 1000 > 5000 ∧ (focusRun 5000 0 [1000, 7000]).2 = 1 := by
  decide

/-- C3 (amended): a raw focus event is accepted exactly when the elapsed
time since the stored last-focus timestamp (initialized to the resource
creation time, updated only on accepted events) strictly exceeds the
throttle interval; an accepted event sets the timestamp to the current
time and a dropped event leaves it unchanged; two events within the
interval of each other produce at most one refetch; and two events each
exceeding the interval since the previously stored timestamp produce two
refetches. -/
theorem focus_throttle (T last t1 t2 : Nat) :
    ((focusHandler T last t1).2 = decide (t1 - last > T))
    ∧ ((focusHandler T last t1).2 = true → (focusHandler T last t1).1 = t1)
    ∧ ((focusHandler T last t1).2 = false → (focusHandler T last t1).1 = last)
    ∧ (t2 - t1 ≤ T → (focusRun T last [t1, t2]).2 ≤ 1)
    ∧ (t1 - last > T → t2 - t1 > T → (focusRun T last [t1, t2]).2 = 2) := by
  simp only [focusRun, focusHandler]
  split_ifs with h1 h2 h3 <;> (simp_all; try omega)

theorem focus_throttle_witness :
    (focusRun 5 0 [10, 20]).2 = 2 :=
  (focus_throttle 5 0 10 20).2.2.2.2 (by decide) (by decide)

/-- C4: the isRefetching flag is false immediately after every key-change
effect run; a delivered cache `refetching` event for a subscribed key sets
it true; a delivered `resolved` or `error` event for a subscribed key
sets it false; and an event for a key with no live subscription leaves the
flag unchanged, so the flag never survives a key change. -/
theorem isRefetching_lifecycle (cfg : Config) (st : MachineState)
    (k : KeyType) (ks : String) :
    ((step cfg st (.keyChange k)).1.isRefetching = false)
    ∧ (Sub.mk ks .refetching ∈ st.subs →
        (step cfg st (.cacheEvent ks .refetching)).1.isRefetching = true)
    ∧ (Sub.mk ks .resolved ∈ st.subs →
        (step cfg st (.cacheEvent ks .resolved)).1.isRefetching = false)
    ∧ (Sub.mk ks .error ∈ st.subs →
        (step cfg st (.cacheEvent ks .error)).1.isRefetching = false)
    ∧ (Sub.mk ks .refetching ∉ st.subs →
        (step cfg st (.cacheEvent ks .refetching)).1.isRefetching
          = st.isRefetching) := by
  refine ⟨?_, ?_, ?_, ?_, ?_⟩
  · simp only [step, keyChangeStep]
    cases activeKey k <;> rfl
  · intro h
    simp [step, eventStep, h]
  · intro h
    simp [step, eventStep, h]
  · intro h
    simp [step, eventStep, h]
  · intro h
    simp [step, eventStep, h]

theorem isRefetching_lifecycle_witness :
    (step ⟨true, true⟩
      ⟨KeyType.str "a", false, setupSubs ⟨true, true⟩ "a"⟩
      (.cacheEvent "a" .refetching)).1.isRefetching = true :=
  (isRefetching_lifecycle ⟨true, true⟩
    ⟨KeyType.str "a", false, setupSubs ⟨true, true⟩ "a"⟩
    KeyType.null "a").2.1 (by decide)

/-- C5: the claim asserts isStale is true at the expiration instant itself.
The code computes `expiresAt.getTime() < now.getTime()` (resource.ts
line 370), which is false at exact equality: a tick at now = E on an
active key reports isStale = false (with staleIn clamped to 0). -/
theorem stale_at_expiration_cex :
    (stalePoll (KeyType.str "a") (some 100) 100 (false, 5)).1 ≠ true := by
  decide

/-- C5 (amended): on each polling tick for an active key with recorded
expiration E, given a non-negative previous countdown: strictly before E
the tick yields isStale = false and staleIn = E - now; at exactly E it
yields isStale = false and staleIn = 0; strictly after E it yields
isStale = true and staleIn = 0; and the countdown is never negative. -/
theorem createStale_tick (k : KeyType) (s : String) (E now : Int)
    (st : Bool × Int) (hk : activeKey k = some s) (hs : 0 ≤ st.2) :
    (now < E → stalePoll k (some E) now st = (false, E - now))
    ∧ (now = E → stalePoll k (some E) now st = (false, 0))
    ∧ (E < now → stalePoll k (some E) now st = (true, 0))
    ∧ 0 ≤ (stalePoll k (some E) now st).2 := by
  simp only [stalePoll, hk, staleTick]
  refine ⟨?_, ?_, ?_, ?_⟩
  · intro h
    have h1 : E - now ≥ 0 := by omega
    have h2 : ¬ E < now := by omega
    simp [h1, h2]
  · intro h
    subst h
    simp
  · intro h
    have h1 : ¬ E - now ≥ 0 := by omega
    rcases lt_or_eq_of_le hs with h2 | h2
    · have h3 : st.2 > 0 := h2
      simp [h, h1, h3]
    · simp [h, h1, ← h2]
  · dsimp only
    split_ifs <;> omega

theorem createStale_tick_witness :
    stalePoll (KeyType.str "a") (some 10) 5 (false, 3) = (false, 5) :=
  (createStale_tick (KeyType.str "a") "a" 10 5 (false, 3) (by decide)
    (by decide)).1 (by decide)

/-- C6: the claim asserts every non-promise loader invocation issues a
stale-tolerant fetch.  The spread `{ stale: true, ...contextOptions,
...options }` (resource.ts line 214) lets a caller option override the
default: with per-call `stale := false` the loader issues a non-stale
fetch. -/
theorem loader_stale_override_cex :
    loader none (some false) "k" RefetchArg.undef
      = LoaderResult.queryFetch "k" false
    ∧ LoaderResult.queryFetch "k" false ≠ LoaderResult.queryFetch "k" true := by
  refine ⟨rfl, by decide⟩

/-- C6 (amended): if the loader invocation's refetching argument is an
externally supplied promise, the loader returns that exact promise and no
fetch is issued; otherwise it issues a cache fetch for the key whose
`stale` option defaults to true but may be overridden by context or
per-call options, so with no override the fetch is stale-tolerant. -/
theorem loader_contract (ctx opts : Option Bool) (k : String)
    (r : RefetchArg) (id : Nat) :
    loader ctx opts k (.promise id) = .fromPromise id
    ∧ (r.isPromise = false →
        loader ctx opts k r = .queryFetch k (resolveStale ctx opts))
    ∧ (r.isPromise = false → loader none none k r = .queryFetch k true) := by
  refine ⟨rfl, ?_, ?_⟩ <;> intro h <;> cases r <;>
    simp_all [RefetchArg.isPromise, loader, resolveStale]

theorem loader_contract_witness :
    loader (some false) none "k" RefetchArg.undef
      = LoaderResult.queryFetch "k" (resolveStale (some false) none) :=
  (loader_contract (some false) none "k" RefetchArg.undef 0).2.1 rfl

/-- C7: on every key change the emitted operation trace is exactly the
unsubscribe of every live handle of the previous Subscription Set followed
by the subscribe operations of the new key's set (teardown fully precedes
setup), and every reachable state holds either no live subscriptions or
exactly the Subscription Set created for its currently bound truthy key —
at most one live Subscription Set per instance. -/
theorem subscription_lifecycle (cfg : Config) (st : MachineState)
    (k : KeyType) (inputs : List Input) :
    ((step cfg st (.keyChange k)).2
      = st.subs.map Action.unsub
        ++ ((step cfg st (.keyChange k)).1.subs.map Action.sub))
    ∧ ((run cfg .init inputs).subs = []
        ∨ ∃ s, activeKey (run cfg .init inputs).key = some s
            ∧ (run cfg .init inputs).subs = setupSubs cfg s) := by
  constructor
  · simp only [step, keyChangeStep]
    cases activeKey k <;> simp
  · exact subInv_run cfg .init inputs (Or.inl rfl)

/-- C8: with no active key (the memoized key is not a string), mutate,
refetch, forget and abort each perform no cache operation; the functions
are total (never throw) and refetch returns a promise resolving to
`undefined`. -/
theorem no_active_key_noop (k : KeyType) (v : Nat) (q : Except String Nat)
    (r : Option Nat) (h : k.isString = false) :
    localMutate k v = none
    ∧ localRefetch k q = .ok none
    ∧ localForget k = none
    ∧ localAbort k r = none := by
  cases k <;> simp_all [KeyType.isString, localMutate, localRefetch,
    localForget, localAbort, activeKey]

theorem no_active_key_noop_witness :
    localMutate KeyType.null 0 = none
    ∧ localRefetch KeyType.null (Except.ok 0) = .ok none
    ∧ localForget KeyType.null = none
    ∧ localAbort KeyType.null none = none :=
  no_active_key_noop KeyType.null 0 (Except.ok 0) none (by decide)

/-- C9: with an active key, if the fresh cache query issued by refetch
rejects with an error, the promise returned by localRefetch rejects with
that same error: the body awaits the query promise and neither catches nor
rewraps it. -/
theorem refetch_propagates_rejection (k : KeyType) (s e : String)
    (h : activeKey k = some s) :
    localRefetch k (.error e) = .error e := by
  simp [localRefetch, h, Except.map]

theorem refetch_propagates_rejection_witness :
    localRefetch (KeyType.str "a") (.error "boom") = .error "boom" :=
  refetch_propagates_rejection (KeyType.str "a") "a" "boom" (by decide)

/-- C10: on a polling tick of createStale where the captured key is not
truthy or the cache reports no expiration for it, the (isStale, staleIn)
pair is returned unchanged — the signals retain their previous values and
are not reset to the stale-by-default initial snapshot. -/
theorem stale_poll_retains (k : KeyType) (exp : Option Int) (now : Int)
    (st : Bool × Int) (h : activeKey k = none ∨ exp = none) :
    stalePoll k exp now st = st := by
  rcases h with h | h
  · simp [stalePoll, h]
  · subst h
    simp only [stalePoll]
    cases activeKey k <;> rfl

theorem stale_poll_retains_witness :
    stalePoll KeyType.null (some 100) 50 (false, 7) = (false, 7) :=
  stale_poll_retains KeyType.null (some 100) 50 (false, 7) (Or.inl rfl)

end TurboSolid
